import Mathlib

/-!
Shallow embedding of the tAPI todo service (FastAPI + SQLModel, single-table
CRUD). Timestamps are modelled as `Int` (UTC instants), UUIDs as `Nat`, the
database table as a `List Todo` in insertion order. HTTP error outcomes are
modelled as `Except Nat` carrying the status code.
-/

namespace TAPI

/-- Database row for the `todo` table (`app/models.py`, class `Todo`).
`title : str` is a NOT NULL column; every other data column is nullable.
`status` defaults to `"todo"`, `priority` to `3`. -/
structure Todo where
  id : Nat
  title : String
  description : Option String := none
  due_at : Option Int := none
  estimated_minutes : Option Int := none
  status : Option String := some "todo"
  priority : Option Int := some 3
  tags : Option (List String) := none
  created_at : Int
  updated_at : Option Int := none
deriving Repr, DecidableEq

/-- In-memory ORM object after attribute assignment and before commit
(`setattr` in `update_todo` performs no validation, so the runtime object can
hold `None` in the `title` attribute even though the column is NOT NULL). -/
structure TodoObj where
  id : Nat
  title : Option String
  description : Option String
  due_at : Option Int
  estimated_minutes : Option Int
  status : Option String
  priority : Option Int
  tags : Option (List String)
  created_at : Int
  updated_at : Option Int
deriving Repr, DecidableEq

/-- View a committed row as a runtime object. -/
def Todo.toObj (t : Todo) : TodoObj :=
  { id := t.id, title := some t.title, description := t.description,
    due_at := t.due_at, estimated_minutes := t.estimated_minutes,
    status := t.status, priority := t.priority, tags := t.tags,
    created_at := t.created_at, updated_at := t.updated_at }

/-- Committing a runtime object enforces the NOT NULL constraint on `title`;
violating it raises an IntegrityError, surfaced as a 500 response. -/
def commitObj (o : TodoObj) : Except Nat Todo :=
  match o.title with
  | none => .error 500
  | some ti =>
      .ok { id := o.id, title := ti, description := o.description,
            due_at := o.due_at, estimated_minutes := o.estimated_minutes,
            status := o.status, priority := o.priority, tags := o.tags,
            created_at := o.created_at, updated_at := o.updated_at }

/-! Credential validator (`app/core/security.py`, `get_api_key`).

`secrets.compare_digest` on ASCII strings runs CPython's `_tscmp`: it always
iterates over the full length of its second argument (the configured key),
comparing against either the supplied string (equal lengths) or the configured
key itself (unequal lengths, with the accumulator pre-set to a nonzero value).
`tscmpLoop` returns the accumulator together with the number of loop
iterations, making the cost of the comparison explicit. -/

def tscmpLoop : List Nat → List Nat → Nat → Nat → Nat × Nat
  | [], _, r, s => (r, s)
  | _ :: _, [], r, s => (r, s)
  | x :: xs, y :: ys, r, s => tscmpLoop xs ys (r ||| (x ^^^ y)) (s + 1)

/-- CPython `_tscmp(a, b)`: result accumulator and iteration count. -/
def tscmpRun (a b : List Nat) : Nat × Nat :=
  let left := if a.length = b.length then a else b
  let init : Nat := if a.length = b.length then 0 else 1
  tscmpLoop left b init 0

/-- Character codes of a string, the byte view `_tscmp` compares (the strings
involved are ASCII, where codepoints and UTF-8 bytes coincide). -/
def strCodes (s : String) : List Nat := s.toList.map Char.toNat

/-- Model of `secrets.compare_digest` on strings. -/
def compareDigest (a b : String) : Bool := (tscmpRun (strCodes a) (strCodes b)).1 == 0

/-- Number of comparison-loop iterations `compare_digest` performs. -/
def compareDigestSteps (a b : String) : Nat := (tscmpRun (strCodes a) (strCodes b)).2

/-- Validator `get_api_key(api_key)` against the configured secret. `if not api_key:`
is true both for a missing header (`None`) and for an empty string, giving
401; otherwise the key is stripped of surrounding whitespace (`.strip()`,
modelled by `String.trim`) and compared in constant time, giving 403 on
mismatch and the stripped key on success. -/
def getApiKey (apiKey : Option String) (configured : String) : Except Nat String :=
  match apiKey with
  | none => .error 401
  | some s =>
      if s = "" then .error 401
      else
        let k := s.trim
        if compareDigest k configured then .ok k else .error 403

/-! Request schema layer (`app/schemas.py`). -/

/-- Inbound create body as pydantic parses it (`TodoCreate`). `title : str` is
required: a missing key and an explicit JSON null are both rejected, so
`title = none` stands for either. For the optional fields the parsed model
only retains the value; `priority` receives its default `3` when the key is
absent. -/
structure TodoCreatePayload where
  title : Option String := none
  description : Option String := none
  due_at : Option Int := none
  estimated_minutes : Option Int := none
  priority : Option Int := some 3
  tags : Option (List String) := none
deriving Repr, DecidableEq

/-- A validated `TodoCreate` model. -/
structure TodoCreate where
  title : String
  description : Option String := none
  due_at : Option Int := none
  estimated_minutes : Option Int := none
  priority : Option Int := some 3
  tags : Option (List String) := none
deriving Repr, DecidableEq

/-- Pydantic validation of `TodoCreate`: `title` must be present (no length
constraint is declared, so the empty string passes), `estimated_minutes` has
`ge=0`, `priority` has `ge=1, le=5`; the `ge`/`le` validators skip `None`.
Validation failures are FastAPI 422 responses. -/
def validateCreate (p : TodoCreatePayload) : Except Nat TodoCreate :=
  match p.title with
  | none => .error 422
  | some ti =>
      if (p.estimated_minutes.getD 0) < 0 then .error 422
      else if !(1 ≤ p.priority.getD 3 ∧ p.priority.getD 3 ≤ 5 : Bool) then .error 422
      else .ok { title := ti, description := p.description, due_at := p.due_at,
                 estimated_minutes := p.estimated_minutes, priority := p.priority,
                 tags := p.tags }

/-- Inbound PATCH body (`TodoUpdate`, all fields `Optional` with default
`None`), keeping pydantic's present/absent flag for each field so that
`model_dump(exclude_unset=True)` is expressible: the outer `Option` is the
flag (`none` = key absent), the inner value is the parsed field value
(`none` = explicit JSON null). -/
structure TodoUpdatePayload where
  title : Option (Option String) := none
  description : Option (Option String) := none
  due_at : Option (Option Int) := none
  estimated_minutes : Option (Option Int) := none
  status : Option (Option String) := none
  priority : Option (Option Int) := none
  tags : Option (Option (List String)) := none
deriving Repr, DecidableEq

/-- Pydantic range validation on `TodoUpdate`: `estimated_minutes` has `ge=0`
and `priority` has `ge=1, le=5`; both skip `None` and absent fields. -/
def validateUpdate (p : TodoUpdatePayload) : Except Nat TodoUpdatePayload :=
  if ((p.estimated_minutes.getD (some 0)).getD 0) < 0 then .error 422
  else if !(1 ≤ (p.priority.getD (some 3)).getD 3 ∧ (p.priority.getD (some 3)).getD 3 ≤ 5 : Bool)
    then .error 422
  else .ok p

/-- The `for k, v in data.items(): setattr(todo, k, v)` merge over
`data = patch.model_dump(exclude_unset=True)`, followed by
`todo.updated_at = datetime.now(timezone.utc)`: a field key present in the
payload overwrites the attribute (an explicit null writes `None`), an absent
key leaves it untouched; `updated_at` is always set. -/
def applyPatch (t : Todo) (p : TodoUpdatePayload) (now : Int) : TodoObj :=
  { id := t.id,
    title := match p.title with | none => some t.title | some v => v,
    description := match p.description with | none => t.description | some v => v,
    due_at := match p.due_at with | none => t.due_at | some v => v,
    estimated_minutes := match p.estimated_minutes with | none => t.estimated_minutes | some v => v,
    status := match p.status with | none => t.status | some v => v,
    priority := match p.priority with | none => t.priority | some v => v,
    tags := match p.tags with | none => t.tags | some v => v,
    created_at := t.created_at,
    updated_at := some now }

/-! Item store operations (`app/api/todos.py`). -/

/-- SQL LIKE pattern matching: `%` matches any sequence, `_` any single
character, a backslash escapes the following character (PostgreSQL's default
escape). -/
def likeMatch : List Char → List Char → Bool
  | [], s => s.isEmpty
  | '%' :: ps, s =>
      likeMatch ps s ||
        (match s with
         | [] => false
         | _ :: s2 => likeMatch ('%' :: ps) s2)
  | '_' :: ps, s =>
      (match s with
       | [] => false
       | _ :: s2 => likeMatch ps s2)
  | '\\' :: c :: ps, s =>
      (match s with
       | [] => false
       | d :: s2 => c == d && likeMatch ps s2)
  | c :: ps, s =>
      (match s with
       | [] => false
       | d :: s2 => c == d && likeMatch ps s2)
termination_by p s => (s.length, p.length)

/-- Case-insensitive LIKE (`ILIKE`): both sides are lowered first
(character-wise, as `lower()` does for ASCII text). -/
def ilike (pat s : String) : Bool :=
  likeMatch (pat.toList.map Char.toLower) (s.toList.map Char.toLower)

/-- Text filter `Todo.title.ilike` on the `%`-wrapped query: the query string is wrapped in `%` by the
handler's f-string before the ILIKE match against the row's title. -/
def titleMatches (qv : String) (t : Todo) : Bool := ilike ("%" ++ qv ++ "%") t.title

/-- JSONB containment `cast(tags, JSONB) @> jsonb_build_array(tag)`: true when
the row's tags array contains the exact value; a SQL NULL tags column makes
the predicate unknown, so the row is filtered out. -/
def tagMatches (tag : String) (t : Todo) : Bool :=
  match t.tags with
  | none => false
  | some ts => ts.contains tag

/-- Status filter `Todo.status == status`: SQL equality; a NULL status never matches. -/
def statusMatches (st : String) (t : Todo) : Bool := t.status == some st

/-- One `if q:`-guarded `.where(...)` clause of `list_todos`: Python's
truthiness skips the filter both when the parameter is absent (`None`) and
when it is the empty string. -/
def applyFilter (v : Option String) (pred : String → Todo → Bool) (l : List Todo) : List Todo :=
  match v with
  | none => l
  | some s => if s = "" then l else l.filter (pred s)

/-- Handler `list_todos` after FastAPI has validated the query parameters: the three
conditional `.where` clauses in source order, then `.limit(limit)`. -/
def listTodos (q tag st : Option String) (lim : Nat) (store : List Todo) : List Todo :=
  (applyFilter st statusMatches (applyFilter tag tagMatches (applyFilter q titleMatches store))).take lim

/-- The `limit` query parameter is declared `int = Query(100, le=1000)`:
absent means 100, and a value above 1000 fails FastAPI validation with a 422
response before the handler runs. (A negative limit reaches the database and
fails there; that failure is not modelled, and no result below exercises it.) -/
def listEndpoint (q tag st : Option String) (limit : Option Int) (store : List Todo) :
    Except Nat (List Todo) :=
  match limit with
  | none => .ok (listTodos q tag st 100 store)
  | some n => if n ≤ 1000 then .ok (listTodos q tag st n.toNat store) else .error 422

/-- Handler `create_todo`: builds `Todo(**item.model_dump())` — the server assigns the
id and `created_at`, `status` takes its model default `"todo"`, `updated_at`
starts `None` — then `session.add`/`commit`. Returns the created row and the
new table state. -/
def createTodo (store : List Todo) (c : TodoCreate) (newId : Nat) (now : Int) :
    Todo × List Todo :=
  let t : Todo := { id := newId, title := c.title, description := c.description,
                    due_at := c.due_at, estimated_minutes := c.estimated_minutes,
                    status := some "todo", priority := c.priority, tags := c.tags,
                    created_at := now, updated_at := none }
  (t, store ++ [t])

/-- Handler `get_todo`: `session.get(Todo, item_id)` is a primary-key lookup; a miss
raises a 404. -/
def getTodo (store : List Todo) (id : Nat) : Except Nat Todo :=
  match store.find? (fun t => t.id == id) with
  | none => .error 404
  | some t => .ok t

/-- Handler `update_todo`: 404 when the id is absent; otherwise merge the patch,
stamp `updated_at`, and commit (an IntegrityError on commit aborts without
mutating the table). Returns the response paired with the table state after
the call. -/
def updateTodo (store : List Todo) (id : Nat) (p : TodoUpdatePayload) (now : Int) :
    Except Nat Todo × List Todo :=
  match store.find? (fun t => t.id == id) with
  | none => (.error 404, store)
  | some t =>
      match commitObj (applyPatch t p now) with
      | .error e => (.error e, store)
      | .ok t2 => (.ok t2, store.map (fun u => if u.id == id then t2 else u))

/-- Handler `delete_todo`: 404 when the id is absent; otherwise `session.delete`
removes the row (primary-key ids are unique, so the first match is the row). -/
def deleteTodo (store : List Todo) (id : Nat) : Except Nat Unit × List Todo :=
  match store.find? (fun t => t.id == id) with
  | none => (.error 404, store)
  | some _ => (.ok (), store.eraseP (fun t => t.id == id))

/-- The row a successful PATCH commit produces: fields whose keys are present
in the payload take the payload's value (`title` can only take a non-null
value here; a null one never commits), all other fields keep their prior
value, and `updated_at` is stamped. -/
def mergedTodo (t : Todo) (p : TodoUpdatePayload) (now : Int) : Todo :=
  { id := t.id,
    title := match p.title with | some (some v) => v | _ => t.title,
    description := match p.description with | none => t.description | some v => v,
    due_at := match p.due_at with | none => t.due_at | some v => v,
    estimated_minutes :=
      match p.estimated_minutes with | none => t.estimated_minutes | some v => v,
    status := match p.status with | none => t.status | some v => v,
    priority := match p.priority with | none => t.priority | some v => v,
    tags := match p.tags with | none => t.tags | some v => v,
    created_at := t.created_at,
    updated_at := some now }

/-- The constraint the text filter actually imposes on a row: no parameter or
the empty string is no constraint; otherwise the ILIKE match of `%q%`. -/
def textConstraint : Option String → Todo → Bool
  | none, _ => true
  | some qv, t => if qv = "" then true else titleMatches qv t

/-- The constraint the tag filter actually imposes on a row. -/
def tagConstraint : Option String → Todo → Bool
  | none, _ => true
  | some tv, t => if tv = "" then true else tagMatches tv t

/-- The constraint the status filter actually imposes on a row. -/
def statusConstraint : Option String → Todo → Bool
  | none, _ => true
  | some sv, t => if sv = "" then true else statusMatches sv t

/-- Case-insensitive substring containment — the relation the specification's
words describe for the text filter, stated here only to compare it with the
ILIKE pattern match the code performs. -/
def specSubstrCI (needle hay : String) : Bool :=
  (hay.toList.map Char.toLower).tails.any
    (fun suf => (needle.toList.map Char.toLower).isPrefixOf suf)

/-! Helper lemmas. -/

lemma or_eq_zero (a b : Nat) : a ||| b = 0 ↔ a = 0 ∧ b = 0 := by
  constructor
  · intro h
    refine ⟨Nat.eq_of_testBit_eq fun k => ?_, Nat.eq_of_testBit_eq fun k => ?_⟩
    all_goals
      have hk := congrArg (fun n => Nat.testBit n k) h
      simp only [Nat.testBit_lor] at hk
      simp only [Nat.zero_testBit] at hk ⊢
      cases Bool.or_eq_false_iff.mp hk with
      | intro h1 h2 => first | exact h1 | exact h2
  · rintro ⟨rfl, rfl⟩
    rfl

lemma tscmpLoop_snd (xs : List Nat) :
    ∀ ys r s, (tscmpLoop xs ys r s).2 = s + min xs.length ys.length := by
  induction xs with
  | nil => intro ys r s; simp [tscmpLoop]
  | cons x xs ih =>
      intro ys r s
      cases ys with
      | nil => simp [tscmpLoop]
      | cons y ys => simp [tscmpLoop, ih]; omega

lemma tscmpLoop_fst (xs : List Nat) :
    ∀ ys r s, ((tscmpLoop xs ys r s).1 = 0 ↔ r = 0 ∧ ∀ p ∈ xs.zip ys, p.1 = p.2) := by
  induction xs with
  | nil => intro ys r s; simp [tscmpLoop]
  | cons x xs ih =>
      intro ys r s
      cases ys with
      | nil => simp [tscmpLoop]
      | cons y ys =>
          simp only [tscmpLoop, List.zip_cons_cons, List.mem_cons]
          rw [ih, or_eq_zero, Nat.xor_eq_zero]
          constructor
          · rintro ⟨⟨hr, hxy⟩, hrest⟩
            refine ⟨hr, fun p hp => ?_⟩
            cases hp with
            | inl h => subst h; exact hxy
            | inr h => exact hrest p h
          · rintro ⟨hr, hall⟩
            exact ⟨⟨hr, hall _ (Or.inl rfl)⟩, fun p hp => hall p (Or.inr hp)⟩

lemma zip_forall_eq (xs : List Nat) :
    ∀ ys, xs.length = ys.length → ((∀ p ∈ xs.zip ys, p.1 = p.2) ↔ xs = ys) := by
  induction xs with
  | nil =>
      intro ys h
      cases ys with
      | nil => simp
      | cons y ys => simp at h
  | cons x xs ih =>
      intro ys h
      cases ys with
      | nil => simp at h
      | cons y ys =>
          simp only [List.length_cons, Nat.add_right_cancel_iff] at h
          simp only [List.zip_cons_cons, List.mem_cons, List.cons_eq_cons]
          rw [← ih ys h]
          constructor
          · intro hall
            exact ⟨hall _ (Or.inl rfl), fun p hp => hall p (Or.inr hp)⟩
          · rintro ⟨hxy, hrest⟩ p hp
            cases hp with
            | inl h2 => subst h2; exact hxy
            | inr h2 => exact hrest p h2

lemma tscmpRun_fst_eq_zero (a b : List Nat) : (tscmpRun a b).1 = 0 ↔ a = b := by
  by_cases h : a.length = b.length
  · rw [tscmpRun]
    simp only [h, if_pos]
    rw [tscmpLoop_fst]
    constructor
    · rintro ⟨-, hall⟩
      exact (zip_forall_eq a b h).mp hall
    · intro hab
      exact ⟨rfl, (zip_forall_eq a b h).mpr hab⟩
  · rw [tscmpRun]
    simp only [h, if_neg, ite_false]
    rw [tscmpLoop_fst]
    simp only [Nat.one_ne_zero, false_and, false_iff]
    intro hab
    exact h (by rw [hab])

lemma tscmpRun_snd (a b : List Nat) : (tscmpRun a b).2 = b.length := by
  rw [tscmpRun]
  by_cases h : a.length = b.length
  · simp only [h, if_pos, tscmpLoop_snd]
    omega
  · simp only [h, if_neg, ite_false, tscmpLoop_snd]
    omega

lemma strCodes_inj (a b : String) (h : strCodes a = strCodes b) : a = b := by
  apply String.ext
  show a.toList = b.toList
  have hinj : Function.Injective Char.toNat := by
    intro c d hcd
    have h2 := congrArg Char.ofNat hcd
    simpa [Char.ofNat_toNat] using h2
  exact List.map_injective_iff.mpr hinj h

lemma compareDigest_iff (a b : String) : compareDigest a b = true ↔ a = b := by
  rw [compareDigest, beq_iff_eq, tscmpRun_fst_eq_zero]
  constructor
  · exact strCodes_inj a b
  · intro h; rw [h]

unseal Substring.takeWhileAux Substring.takeRightWhileAux in
lemma trim_empty : ("" : String).trim = "" := rfl

lemma applyFilter_text (q : Option String) (l : List Todo) :
    applyFilter q titleMatches l = l.filter (fun t => textConstraint q t) := by
  cases q with
  | none => simp [applyFilter, textConstraint]
  | some s => by_cases hs : s = "" <;> simp [applyFilter, textConstraint, hs]

lemma applyFilter_tag (v : Option String) (l : List Todo) :
    applyFilter v tagMatches l = l.filter (fun t => tagConstraint v t) := by
  cases v with
  | none => simp [applyFilter, tagConstraint]
  | some s => by_cases hs : s = "" <;> simp [applyFilter, tagConstraint, hs]

lemma applyFilter_status (v : Option String) (l : List Todo) :
    applyFilter v statusMatches l = l.filter (fun t => statusConstraint v t) := by
  cases v with
  | none => simp [applyFilter, statusConstraint]
  | some s => by_cases hs : s = "" <;> simp [applyFilter, statusConstraint, hs]

lemma find?_eraseP_id (l : List Todo) (i : Nat) (h : (l.map Todo.id).Nodup) :
    (l.eraseP (fun t => t.id == i)).find? (fun t => t.id == i) = none := by
  induction l with
  | nil => simp [List.eraseP]
  | cons a l ih =>
      simp only [List.map_cons, List.nodup_cons] at h
      by_cases ha : a.id = i
      · rw [List.eraseP_cons_of_pos (by simpa using ha)]
        rw [List.find?_eq_none]
        intro x hx hpx
        have hxi : x.id = i := by simpa using hpx
        apply h.1
        have hmem : x.id ∈ l.map Todo.id := List.mem_map_of_mem Todo.id hx
        rw [ha, ← hxi]
        exact hmem
      · rw [List.eraseP_cons_of_neg (by simpa using ha)]
        rw [List.find?_cons_of_neg _ (by simpa using ha)]
        exact ih h.2

lemma update_success (t : Todo) (p : TodoUpdatePayload) (now : Int)
    (htitle : p.title ≠ some none) :
    commitObj (applyPatch t p now) = .ok (mergedTodo t p now) := by
  cases hpt : p.title with
  | none => simp [applyPatch, commitObj, mergedTodo, hpt]
  | some ov =>
      cases ov with
      | none => exact absurd hpt htitle
      | some v => simp [applyPatch, commitObj, mergedTodo, hpt]

/-! Claim theorems. -/

/-- C9: the credential comparison runs in time independent of where the first
mismatched character occurs. `secrets.compare_digest` (CPython `_tscmp`)
always iterates over the full length of the configured secret, so its
iteration count is the same for any two presented secrets — in particular it
does not depend on the position of the first differing character. -/
theorem C9_compare_digest_constant_time (a1 a2 b : String) :
    compareDigestSteps a1 b = compareDigestSteps a2 b := by
  rw [compareDigestSteps, compareDigestSteps, tscmpRun_snd, tscmpRun_snd]

/-- C5, counterexample: the claim says the validator fails with 401 if and
only if the secret is absent. An empty-string secret is present, yet
`if not api_key:` treats it like a missing header and returns 401 (the claim
would require 403, since the stripped empty string differs from the
configured secret). -/
theorem C5_counterexample :
    getApiKey (some "") "sek" = .error 401 ∧
    (some "" : Option String) ≠ none ∧
    ("" : String).trim ≠ "sek" := by
  refine ⟨rfl, by simp, ?_⟩
  rw [trim_empty]
  decide

/-- C5 as amended: the validator returns 401 iff the secret is absent or the
empty string; 403 iff a nonempty secret is present whose whitespace-stripped
value differs from the configured secret; and authorizes (returning the
stripped secret) iff a nonempty secret is present whose stripped value equals
the configured secret. -/
theorem C5_auth_status_characterization (k : Option String) (cfg : String) :
    (getApiKey k cfg = .error 401 ↔ (k = none ∨ k = some "")) ∧
    (getApiKey k cfg = .error 403 ↔ (∃ s, k = some s ∧ s ≠ "" ∧ s.trim ≠ cfg)) ∧
    (∀ r, getApiKey k cfg = .ok r ↔ (∃ s, k = some s ∧ s ≠ "" ∧ s.trim = cfg ∧ r = s.trim)) := by
  cases k with
  | none => simp [getApiKey]
  | some s =>
      by_cases hs : s = ""
      · subst hs
        simp [getApiKey]
      · by_cases hc : s.trim = cfg
        · have hb : compareDigest cfg cfg = true := (compareDigest_iff _ _).mpr rfl
          simp [getApiKey, hs, hb, hc]
          intro r
          exact eq_comm
        · have hb : compareDigest s.trim cfg = false := by
            rw [Bool.eq_false_iff]
            intro hh
            exact hc ((compareDigest_iff _ _).mp hh)
          simp [getApiKey, hs, hb, hc]

/-- C1, counterexample: requesting `limit=5000` does not succeed with at most
1000 items — `limit: int = Query(100, le=1000)` makes FastAPI reject the
request with a 422 validation error, so the observed policy is rejection, not
clamping. -/
theorem C1_counterexample :
    listEndpoint none none none (some 5000) [] = .error 422 := rfl

/-- C1 as amended: a list request with a limit above the 1000 ceiling is
rejected with a 422 client error rather than clamped, and when no limit is
supplied the default cap of 100 applies, so at most 100 items are returned. -/
theorem C1_limit_reject_and_default (q tag st : Option String) (store : List Todo)
    (n : Int) (h : 1000 < n) :
    listEndpoint q tag st (some n) store = .error 422 ∧
    ∀ res, listEndpoint q tag st none store = .ok res → res.length ≤ 100 := by
  constructor
  · rw [listEndpoint]
    simp [not_le.mpr h]
  · intro res hres
    simp only [listEndpoint, Except.ok.injEq] at hres
    subst hres
    simp [listTodos, List.length_take]

/-- C1 witness: the amended claim at `limit=5000` on the empty store. -/
theorem C1_witness :
    listEndpoint none none none (some 5000) ([] : List Todo) = .error 422 ∧
    ∀ res, listEndpoint none none none none ([] : List Todo) = .ok res → res.length ≤ 100 :=
  C1_limit_reject_and_default none none none [] 5000 (by decide)

/-- C10: supplying any filter parameter as the empty string gives exactly the
same result as omitting that parameter — Python's `if q:` truthiness test
skips the corresponding `.where` clause for `None` and for `""` alike, so the
empty string imposes no constraint. -/
theorem C10_empty_filter_no_constraint (q tag st : Option String) (limit : Option Int)
    (store : List Todo) :
    listEndpoint (some "") tag st limit store = listEndpoint none tag st limit store ∧
    listEndpoint q (some "") st limit store = listEndpoint q none st limit store ∧
    listEndpoint q tag (some "") limit store = listEndpoint q tag none limit store := by
  refine ⟨?_, ?_, ?_⟩ <;> cases limit <;> simp [listEndpoint, listTodos, applyFilter]

/-- C2, counterexample: a create with an empty-string title is accepted and
persisted — the schema declares `title: str` with no minimum length, so only
absence is rejected, not emptiness. -/
theorem C2_counterexample :
    validateCreate { title := some "" } = .ok { title := "" } ∧
    (createTodo [] { title := "" } 7 0).2 = [{ id := 7, title := "", created_at := 0 }] :=
  ⟨rfl, rfl⟩

/-- C2 as amended: create fails with a 422 client error when `title` is
absent (a missing key and an explicit null are both rejected for the required
`str` field); an empty-string title, however, passes validation unchanged and
the created row is persisted with it. -/
theorem C2_title_required_empty_accepted (p : TodoCreatePayload) (store : List Todo)
    (newId : Nat) (now : Int) :
    (p.title = none → validateCreate p = .error 422) ∧
    (∀ c, validateCreate p = .ok c →
      p.title = some c.title ∧
      (createTodo store c newId now).1.title = c.title ∧
      (createTodo store c newId now).1 ∈ (createTodo store c newId now).2) := by
  constructor
  · intro h
    rw [validateCreate, h]
  · intro c hc
    rw [validateCreate] at hc
    cases hp : p.title with
    | none =>
        rw [hp] at hc
        exact Except.noConfusion hc
    | some ti =>
        rw [hp] at hc
        dsimp only at hc
        by_cases h1 : (p.estimated_minutes.getD 0) < 0
        · rw [if_pos h1] at hc
          exact Except.noConfusion hc
        · rw [if_neg h1] at hc
          by_cases h2 : (1 ≤ p.priority.getD 3 ∧ p.priority.getD 3 ≤ 5 : Bool) = true
          · rw [h2] at hc
            simp only [Bool.not_true, Bool.false_eq_true, if_false, Except.ok.injEq] at hc
            subst hc
            exact ⟨rfl, rfl, by simp [createTodo]⟩
          · rw [Bool.eq_false_iff.mpr h2] at hc
            simp only [Bool.not_false, if_true] at hc
            exact Except.noConfusion hc

/-- C2 witness: the amended claim at an absent title and at `title="x"`. -/
theorem C2_witness :
    validateCreate ({} : TodoCreatePayload) = .error 422 ∧
    (createTodo [] { title := "x" } 1 0).1 ∈ (createTodo [] { title := "x" } 1 0).2 :=
  ⟨(C2_title_required_empty_accepted {} [] 1 0).1 rfl,
   ((C2_title_required_empty_accepted { title := some "x" } [] 1 0).2 { title := "x" } rfl).2.2⟩

unseal likeMatch in
/-- C7, counterexample: the text filter is not a case-insensitive substring
match — the query string is interpolated into an ILIKE pattern unescaped, so
`_` (and `%`) in it act as wildcards: `q="a_c"` matches the stored title
`"abc"` although `"a_c"` is not a substring of it. -/
theorem C7_counterexample :
    listTodos (some "a_c") none none 100 [{ id := 1, title := "abc", created_at := 0 }] =
      [{ id := 1, title := "abc", created_at := 0 }] ∧
    specSubstrCI "a_c" "abc" = false :=
  ⟨rfl, rfl⟩

/-- C7 as amended: the list operation returns exactly the stored records that
satisfy all supplied filters ANDed together, truncated to the limit — where
the text filter is a case-insensitive LIKE pattern match of `%q%` against the
title (with `%` and `_` in the query acting as wildcards rather than literal
characters), the tag filter is exact membership in the record's tags list,
and the status filter exact equality against status — an absent (or
empty-string) filter imposing no constraint; with no filters the store itself
is returned up to the limit, and an empty result is a success. -/
theorem C7_filter_semantics (q tag st : Option String) (lim : Nat) (store : List Todo) :
    listTodos q tag st lim store =
      (store.filter
        (fun t => textConstraint q t && tagConstraint tag t && statusConstraint st t)).take lim ∧
    listTodos none none none lim store = store.take lim := by
  constructor
  · rw [listTodos, applyFilter_text, applyFilter_tag, applyFilter_status,
        List.filter_filter, List.filter_filter]
    congr 1
    apply List.filter_congr
    intro t _
    cases textConstraint q t <;> cases tagConstraint tag t <;>
      cases statusConstraint st t <;> rfl
  · simp [listTodos, applyFilter]

/-- C8: Get, Update and Delete on an identifier not in the store each fail
with 404 and leave the store unchanged; and after a successful delete (with
primary-key ids unique), fetching the deleted id returns 404 and deleting it
again also returns 404, leaving the store unchanged. -/
theorem C8_missing_id_and_delete_idempotent (store : List Todo) (i : Nat)
    (p : TodoUpdatePayload) (now : Int) (hnd : (store.map Todo.id).Nodup) :
    (store.find? (fun t => t.id == i) = none →
      getTodo store i = .error 404 ∧
      updateTodo store i p now = (.error 404, store) ∧
      deleteTodo store i = (.error 404, store)) ∧
    (∀ store2, deleteTodo store i = (.ok (), store2) →
      getTodo store2 i = .error 404 ∧
      deleteTodo store2 i = (.error 404, store2)) := by
  constructor
  · intro h
    refine ⟨?_, ?_, ?_⟩ <;> simp [getTodo, updateTodo, deleteTodo, h]
  · intro store2 hdel
    rw [deleteTodo] at hdel
    cases hfind : store.find? (fun t => t.id == i) with
    | none =>
        rw [hfind] at hdel
        simp at hdel
    | some t =>
        rw [hfind] at hdel
        simp only [Prod.mk.injEq] at hdel
        have hs2 := hdel.2
        subst hs2
        have hnone := find?_eraseP_id store i hnd
        exact ⟨by simp [getTodo, hnone], by simp [deleteTodo, hnone]⟩

/-- C8 witness: a one-row store with id 1; operations on the missing id 2 all
return 404 unchanged, and deleting id 1 then fetching or deleting it again
returns 404. -/
theorem C8_witness :
    (getTodo [{ id := 1, title := "a", created_at := 0 }] 2 = .error 404 ∧
     updateTodo [{ id := 1, title := "a", created_at := 0 }] 2 {} 0 =
       (.error 404, [{ id := 1, title := "a", created_at := 0 }]) ∧
     deleteTodo [{ id := 1, title := "a", created_at := 0 }] 2 =
       (.error 404, [{ id := 1, title := "a", created_at := 0 }])) ∧
    (getTodo [] 1 = .error 404 ∧ deleteTodo ([] : List Todo) 1 = (.error 404, [])) :=
  ⟨(C8_missing_id_and_delete_idempotent [{ id := 1, title := "a", created_at := 0 }] 2 {} 0
      (by decide)).1 (by decide),
   (C8_missing_id_and_delete_idempotent [{ id := 1, title := "a", created_at := 0 }] 1 {} 0
      (by decide)).2 [] rfl⟩

/-- C3, counterexample: not every partial-update payload on an existing
record succeeds with an updated record — the payload `{"title": null}` passes
the schema (title is `Optional` on update), is merged by `setattr`, and then
violates the NOT NULL constraint on the `title` column at commit, surfacing
as a 500 server error instead of an updated record. -/
theorem C3_counterexample :
    (updateTodo [{ id := 1, title := "a", created_at := 0 }] 1
      { title := some none } 5).1 = .error 500 := rfl

/-- C3 as amended: for every existing record and every partial-update payload
that does not set `title` to an explicit null (which instead fails the NOT
NULL constraint with a server error), the update changes exactly the fields
whose keys are present in the payload, leaves every other field — including
id and created_at — at its prior value, always sets updated_at to the
current UTC time, returns the updated record, and replaces only that row in
the store. -/
theorem C3_partial_update_frame (store : List Todo) (t : Todo) (p : TodoUpdatePayload)
    (now : Int) (hfind : store.find? (fun u => u.id == t.id) = some t)
    (htitle : p.title ≠ some none) :
    ∃ t2, (updateTodo store t.id p now).1 = .ok t2 ∧
      (updateTodo store t.id p now).2 = store.map (fun u => if u.id == t.id then t2 else u) ∧
      t2.id = t.id ∧ t2.created_at = t.created_at ∧ t2.updated_at = some now ∧
      t2.title = (match p.title with | some (some v) => v | _ => t.title) ∧
      t2.description = (match p.description with | none => t.description | some v => v) ∧
      t2.due_at = (match p.due_at with | none => t.due_at | some v => v) ∧
      t2.estimated_minutes =
        (match p.estimated_minutes with | none => t.estimated_minutes | some v => v) ∧
      t2.status = (match p.status with | none => t.status | some v => v) ∧
      t2.priority = (match p.priority with | none => t.priority | some v => v) ∧
      t2.tags = (match p.tags with | none => t.tags | some v => v) := by
  refine ⟨mergedTodo t p now, ?_, ?_, rfl, rfl, rfl, rfl, rfl, rfl, rfl, rfl, rfl, rfl⟩ <;>
    simp only [updateTodo, hfind, update_success t p now htitle]

/-- C3 witness: updating only `status` on a one-row store succeeds, stamps
`updated_at`, applies the new status, and leaves all other fields at their
prior values. -/
theorem C3_witness :
    ∃ t2, (updateTodo [{ id := 1, title := "a", created_at := 0 }] 1
        { status := some (some "done") } 7).1 = .ok t2 ∧
      (updateTodo [{ id := 1, title := "a", created_at := 0 }] 1
        { status := some (some "done") } 7).2 =
        [{ id := 1, title := "a", created_at := 0 }].map
          (fun u => if u.id == 1 then t2 else u) ∧
      t2.id = 1 ∧ t2.created_at = 0 ∧ t2.updated_at = some 7 ∧
      t2.title = "a" ∧ t2.description = none ∧ t2.due_at = none ∧
      t2.estimated_minutes = none ∧ t2.status = some "done" ∧
      t2.priority = some 3 ∧ t2.tags = none :=
  C3_partial_update_frame [{ id := 1, title := "a", created_at := 0 }]
    { id := 1, title := "a", created_at := 0 } { status := some (some "done") } 7
    rfl (by simp)

/-- C4, counterexample: an explicit null does not clear every updatable
field — for `title`, the null is distinguished and forwarded, but the merged
object then violates the NOT NULL `title` column at commit, so the update
fails with a 500 server error and the field is not cleared. -/
theorem C4_counterexample :
    (updateTodo [{ id := 2, title := "b", created_at := 0 }] 2
      { title := some none } 9).1 = .error 500 ∧
    (updateTodo [{ id := 2, title := "b", created_at := 0 }] 2
      { title := some none } 9).2 = [{ id := 2, title := "b", created_at := 0 }] :=
  ⟨rfl, rfl⟩

/-- C4 as amended: for every nullable updatable field (description, due_at,
estimated_minutes, status, priority, tags), supplying an explicit null clears
the field while omitting the key leaves it unchanged — the absent /
present-but-null distinction survives decode and merge; for `title` the
distinction also survives decode and merge, but the explicit null then fails
the NOT NULL constraint at commit with a server error instead of clearing
the field. -/
theorem C4_explicit_null_clears (store : List Todo) (t : Todo) (p : TodoUpdatePayload)
    (now : Int) (hfind : store.find? (fun u => u.id == t.id) = some t)
    (htitle : p.title ≠ some none) :
    (∃ t2, (updateTodo store t.id p now).1 = .ok t2 ∧
      (p.description = some none → t2.description = none) ∧
      (p.description = none → t2.description = t.description) ∧
      (p.due_at = some none → t2.due_at = none) ∧
      (p.due_at = none → t2.due_at = t.due_at) ∧
      (p.estimated_minutes = some none → t2.estimated_minutes = none) ∧
      (p.estimated_minutes = none → t2.estimated_minutes = t.estimated_minutes) ∧
      (p.status = some none → t2.status = none) ∧
      (p.status = none → t2.status = t.status) ∧
      (p.priority = some none → t2.priority = none) ∧
      (p.priority = none → t2.priority = t.priority) ∧
      (p.tags = some none → t2.tags = none) ∧
      (p.tags = none → t2.tags = t.tags)) ∧
    (∀ p2 : TodoUpdatePayload, p2.title = some none →
      (updateTodo store t.id p2 now).1 = .error 500) := by
  constructor
  · refine ⟨mergedTodo t p now, ?_, ?_, ?_, ?_, ?_, ?_, ?_, ?_, ?_, ?_, ?_, ?_, ?_⟩
    · simp only [updateTodo, hfind, update_success t p now htitle]
    all_goals intro h
    all_goals simp [mergedTodo, h]
  · intro p2 h2
    simp only [updateTodo, hfind]
    have : commitObj (applyPatch t p2 now) = .error 500 := by
      simp [applyPatch, commitObj, h2]
    simp [this]

/-- C4 witness: on a one-row store, a payload with an explicit null
description clears it, every omitted field keeps its prior value, and a
payload with an explicit null title fails with a 500 server error. -/
theorem C4_witness :
    (∃ t2, (updateTodo [{ id := 3, title := "c", description := some "d", created_at := 0 }] 3
        { description := some none } 4).1 = .ok t2 ∧
      ((some none : Option (Option String)) = some none → t2.description = none) ∧
      ((some none : Option (Option String)) = none → t2.description = some "d") ∧
      ((none : Option (Option Int)) = some none → t2.due_at = none) ∧
      ((none : Option (Option Int)) = none → t2.due_at = none) ∧
      ((none : Option (Option Int)) = some none → t2.estimated_minutes = none) ∧
      ((none : Option (Option Int)) = none → t2.estimated_minutes = none) ∧
      ((none : Option (Option String)) = some none → t2.status = none) ∧
      ((none : Option (Option String)) = none → t2.status = some "todo") ∧
      ((none : Option (Option Int)) = some none → t2.priority = none) ∧
      ((none : Option (Option Int)) = none → t2.priority = some 3) ∧
      ((none : Option (Option (List String))) = some none → t2.tags = none) ∧
      ((none : Option (Option (List String))) = none → t2.tags = none)) ∧
    (∀ p2 : TodoUpdatePayload, p2.title = some none →
      (updateTodo [{ id := 3, title := "c", description := some "d", created_at := 0 }] 3
        p2 4).1 = .error 500) :=
  C4_explicit_null_clears [{ id := 3, title := "c", description := some "d", created_at := 0 }]
    { id := 3, title := "c", description := some "d", created_at := 0 }
    { description := some none } 4 rfl (by simp)

/-- C6: creating an item from a valid create payload and then fetching it by
the returned identifier yields the created record, equal to the payload on
every caller-supplied field, with `created_at` populated from the server
clock and `updated_at` absent. -/
theorem C6_create_get_roundtrip (store : List Todo) (p : TodoCreatePayload)
    (c : TodoCreate) (newId : Nat) (now : Int) (hv : validateCreate p = .ok c)
    (hfresh : ∀ u ∈ store, u.id ≠ newId) :
    getTodo (createTodo store c newId now).2 newId = .ok (createTodo store c newId now).1 ∧
    (createTodo store c newId now).1.title = c.title ∧
    (createTodo store c newId now).1.description = c.description ∧
    (createTodo store c newId now).1.due_at = c.due_at ∧
    (createTodo store c newId now).1.estimated_minutes = c.estimated_minutes ∧
    (createTodo store c newId now).1.priority = c.priority ∧
    (createTodo store c newId now).1.tags = c.tags ∧
    (createTodo store c newId now).1.created_at = now ∧
    (createTodo store c newId now).1.updated_at = none := by
  have hnone : store.find? (fun u => u.id == newId) = none := by
    rw [List.find?_eq_none]
    intro x hx
    simpa using hfresh x hx
  refine ⟨?_, rfl, rfl, rfl, rfl, rfl, rfl, rfl, rfl⟩
  rw [createTodo]
  dsimp only
  rw [getTodo, List.find?_append, hnone]
  simp

/-- C6 witness: create on the empty store with a title-only payload, then
fetch by the fresh id 1. -/
theorem C6_witness :
    getTodo (createTodo [] { title := "x" } 1 0).2 1 = .ok (createTodo [] { title := "x" } 1 0).1 ∧
    (createTodo [] { title := "x" } 1 0).1.title = "x" ∧
    (createTodo [] { title := "x" } 1 0).1.description = none ∧
    (createTodo [] { title := "x" } 1 0).1.due_at = none ∧
    (createTodo [] { title := "x" } 1 0).1.estimated_minutes = none ∧
    (createTodo [] { title := "x" } 1 0).1.priority = some 3 ∧
    (createTodo [] { title := "x" } 1 0).1.tags = none ∧
    (createTodo [] { title := "x" } 1 0).1.created_at = 0 ∧
    (createTodo [] { title := "x" } 1 0).1.updated_at = none :=
  C6_create_get_roundtrip [] { title := some "x" } { title := "x" } 1 0 rfl
    (by simp)

end TAPI
